/-
  Verification of the pico-agent agent-orchestration framework.

  Shallow embedding of the core components:
  configuration resolution (registry.py), message building (messages.py),
  capability routing (router.py), agent execution (proxy.py, virtual.py),
  the experiment registry (experiments.py) and the trace collector
  (tracing.py).  Python dicts are modelled as insertion-ordered association
  lists, machine floats used as experiment weights are modelled as rationals,
  and fallible Python code is modelled with Except.
-/
import Mathlib

namespace PicoAgent

/-! ### Python dictionary primitives

Python dicts preserve insertion order; ``dictGet`` is ``d.get(k)`` and
``dictSet`` is ``d[k] = v`` (overwrite in place, keep position). -/

def dictGet {α : Type} (l : List (String × α)) (k : String) : Option α :=
  match l with
  | [] => none
  | (k₁, v₁) :: rest => if k₁ = k then some v₁ else dictGet rest k

def dictSet {α : Type} (l : List (String × α)) (k : String) (v : α) : List (String × α) :=
  match l with
  | [] => [(k, v)]
  | (k₁, v₁) :: rest => if k₁ = k then (k, v) :: rest else (k₁, v₁) :: dictSet rest k v

/-- Truthiness of an optional Python string: ``None`` and ``""`` are falsy. -/
def truthyOptStr : Option String → Bool
  | none => false
  | some s => decide (s ≠ "")

/-- Python ``x or y`` for an optional string ``x`` (``d.get(k) or fallback``):
``y`` is taken when ``x`` is ``None`` or the empty string. -/
def pyOrStr (x y : Option String) : Option String :=
  match x with
  | some s => if s = "" then y else some s
  | none => y

/-! ### Configuration data model (config.py) -/

/-- Execution strategy enum ``AgentType`` from config.py. -/
inductive AgentType where
  | one_shot
  | react
  | workflow
  deriving DecidableEq

/-- Projection of the open ``workflow_config`` dict onto the keys the
workflow engine reads in virtual.py (``type``, ``splitter``, ``reducer``,
``mapper``, ``mappers``). -/
structure WorkflowConfig where
  type : Option String := none
  splitter : Option String := none
  reducer : Option String := none
  mapper : Option String := none
  mappers : Option (List (String × String)) := none
  deriving DecidableEq

/-- The ``AgentConfig`` dataclass from config.py, with the dataclass
defaults.  ``temperature`` (a Python float) is modelled as a rational. -/
structure AgentConfig where
  name : String
  system_prompt : String := ""
  user_prompt_template : String := "\x7binput\x7d"
  description : String := ""
  capability : String := "smart"
  enabled : Bool := true
  agent_type : AgentType := .one_shot
  max_iterations : Nat := 5
  tools : List String := []
  agents : List String := []
  tags : List String := []
  tracing_enabled : Bool := true
  temperature : ℚ := 7/10
  max_tokens : Option Nat := none
  llm_profile : Option String := none
  workflow_config : WorkflowConfig := {}
  deriving DecidableEq

/-! ### Configuration resolution (registry.py, AgentConfigService) -/

/-- A runtime-override record: the ``**kwargs`` dict passed to
``update_agent_config``, projected field-wise onto ``AgentConfig``.
A field is ``none`` when the corresponding key is absent from the dict. -/
structure ConfigPatch where
  name : Option String := none
  system_prompt : Option String := none
  user_prompt_template : Option String := none
  description : Option String := none
  capability : Option String := none
  enabled : Option Bool := none
  agent_type : Option AgentType := none
  max_iterations : Option Nat := none
  tools : Option (List String) := none
  agents : Option (List String) := none
  tags : Option (List String) := none
  tracing_enabled : Option Bool := none
  temperature : Option ℚ := none
  max_tokens : Option (Option Nat) := none
  llm_profile : Option (Option String) := none
  workflow_config : Option WorkflowConfig := none
  deriving DecidableEq

/-- The empty override record (the empty kwargs dict). -/
def ConfigPatch.empty : ConfigPatch := {}

/-- Python truthiness of the override dict: an empty dict is falsy. -/
def ConfigPatch.isEmpty (p : ConfigPatch) : Bool := decide (p = ConfigPatch.empty)

/-- Python ``dict.update(kwargs)``: field-wise overwrite, the newer value
wins whenever the key is present in ``new``. -/
def ConfigPatch.merge (old new : ConfigPatch) : ConfigPatch where
  name := new.name.orElse fun _ => old.name
  system_prompt := new.system_prompt.orElse fun _ => old.system_prompt
  user_prompt_template := new.user_prompt_template.orElse fun _ => old.user_prompt_template
  description := new.description.orElse fun _ => old.description
  capability := new.capability.orElse fun _ => old.capability
  enabled := new.enabled.orElse fun _ => old.enabled
  agent_type := new.agent_type.orElse fun _ => old.agent_type
  max_iterations := new.max_iterations.orElse fun _ => old.max_iterations
  tools := new.tools.orElse fun _ => old.tools
  agents := new.agents.orElse fun _ => old.agents
  tags := new.tags.orElse fun _ => old.tags
  tracing_enabled := new.tracing_enabled.orElse fun _ => old.tracing_enabled
  temperature := new.temperature.orElse fun _ => old.temperature
  max_tokens := new.max_tokens.orElse fun _ => old.max_tokens
  llm_profile := new.llm_profile.orElse fun _ => old.llm_profile
  workflow_config := new.workflow_config.orElse fun _ => old.workflow_config

/-- ``dataclasses.replace(base, **patch)``: every field present in the
patch overwrites the corresponding field of the base config. -/
def applyPatch (base : AgentConfig) (p : ConfigPatch) : AgentConfig where
  name := p.name.getD base.name
  system_prompt := p.system_prompt.getD base.system_prompt
  user_prompt_template := p.user_prompt_template.getD base.user_prompt_template
  description := p.description.getD base.description
  capability := p.capability.getD base.capability
  enabled := p.enabled.getD base.enabled
  agent_type := p.agent_type.getD base.agent_type
  max_iterations := p.max_iterations.getD base.max_iterations
  tools := p.tools.getD base.tools
  agents := p.agents.getD base.agents
  tags := p.tags.getD base.tags
  tracing_enabled := p.tracing_enabled.getD base.tracing_enabled
  temperature := p.temperature.getD base.temperature
  max_tokens := p.max_tokens.getD base.max_tokens
  llm_profile := p.llm_profile.getD base.llm_profile
  workflow_config := p.workflow_config.getD base.workflow_config

/-- The ``AgentConfig(**config_data)`` call in ``get_config``: the override
dict, with ``name`` defaulted to the queried name when absent, applied on
top of the dataclass defaults. -/
def synthesizeConfig (agentName : String) (p : ConfigPatch) : AgentConfig :=
  applyPatch { name := p.name.getD agentName } p

/-- State of ``AgentConfigService``: the central client and the local
registry are read-only lookup sources; ``runtime_overrides`` is the
mutable per-name override dict. -/
structure AgentConfigState where
  central : String → Option AgentConfig
  localReg : String → Option AgentConfig
  runtime_overrides : List (String × ConfigPatch) := []

/-- ``AgentConfigService.get_config``: remote first, else local, as the
base; a truthy (non-empty) per-name override record is applied on the
base with ``replace``; with no base, a truthy override synthesizes a
config from defaults; otherwise a ``ValueError`` is raised. -/
def AgentConfigService.get_config (st : AgentConfigState) (name : String) :
    Except String AgentConfig :=
  let remote_config := st.central name
  let local_config := st.localReg name
  let base_config := remote_config.orElse fun _ => local_config
  let runtime_data := dictGet st.runtime_overrides name
  match base_config with
  | some base =>
    match runtime_data with
    | some p => if p.isEmpty then .ok base else .ok (applyPatch base p)
    | none => .ok base
  | none =>
    match runtime_data with
    | some p =>
      if p.isEmpty then .error ("No configuration found for agent: " ++ name)
      else .ok (synthesizeConfig name p)
    | none => .error ("No configuration found for agent: " ++ name)

/-- ``AgentConfigService.update_agent_config``: create the per-name dict
if absent, then ``dict.update`` it with the new kwargs. -/
def AgentConfigService.update_agent_config (st : AgentConfigState) (name : String)
    (kwargs : ConfigPatch) : AgentConfigState :=
  let old := (dictGet st.runtime_overrides name).getD ConfigPatch.empty
  { st with runtime_overrides := dictSet st.runtime_overrides name (old.merge kwargs) }

/-! ### Template substitution and message building (messages.py)

Python ``str.format(**context)`` is modelled for the fragment the repo
uses: simple named fields in braces, doubled braces as escapes.  A field
whose key is absent from the context raises ``KeyError``; a stray or
unmatched brace raises ``ValueError``. -/

/-- The two exception classes ``str.format`` can raise on the modelled
fragment. -/
inductive FormatError where
  | keyError
  | valueError
  deriving DecidableEq

/-- Core scanner of the ``str.format`` model.  ``mode`` is ``none`` for
plain text and ``some acc`` while inside a brace-delimited field whose
name characters read so far are ``acc`` (reversed).  A doubled brace is
the escape for a literal brace; an unterminated or stray brace raises
``ValueError``; a field name absent from the context raises
``KeyError``. -/
def formatCore (ctx : List (String × String)) (mode : Option (List Char)) :
    List Char → Except FormatError String
  | [] =>
    match mode with
    | none => .ok ""
    | some _ => .error .valueError
  | c :: rest =>
    match mode with
    | some acc =>
      if c = '\x7d' then
        match dictGet ctx (String.mk acc.reverse) with
        | none => .error .keyError
        | some v => (formatCore ctx none rest).map (fun s => v ++ s)
      else formatCore ctx (some (c :: acc)) rest
    | none =>
      if c = '\x7b' then
        match rest with
        | [] => .error .valueError
        | c₂ :: rest₂ =>
          if c₂ = '\x7b' then (formatCore ctx none rest₂).map (fun s => "\x7b" ++ s)
          else if c₂ = '\x7d' then
            match dictGet ctx "" with
            | none => .error .keyError
            | some v => (formatCore ctx none rest₂).map (fun s => v ++ s)
          else formatCore ctx (some [c₂]) rest₂
      else if c = '\x7d' then
        match rest with
        | [] => .error .valueError
        | c₂ :: rest₂ =>
          if c₂ = '\x7d' then (formatCore ctx none rest₂).map (fun s => "\x7d" ++ s)
          else .error .valueError
      else (formatCore ctx none rest).map (fun s => String.mk [c] ++ s)

/-- ``template.format(**context)`` on the modelled fragment (simple
named fields). -/
def pyFormat (template : String) (ctx : List (String × String)) :
    Except FormatError String :=
  formatCore ctx none template.data

/-- One chat message: a role/content dict. -/
structure Message where
  role : String
  content : String
  deriving DecidableEq

/-- ``build_messages`` from messages.py.  A truthy (non-empty) system
prompt is formatted against the context; a ``KeyError`` falls back to
the raw template.  The user content defaults to the context values
joined with single spaces in insertion order, and a truthy user template
is formatted the same way, with ``KeyError`` keeping the joined default.
``ValueError`` from the formatter is not caught and propagates. -/
def build_messages (config : AgentConfig) (context : List (String × String)) :
    Except FormatError (List Message) := do
  let sys_messages : List Message ←
    if config.system_prompt ≠ "" then
      match pyFormat config.system_prompt context with
      | .ok s => .ok [{ role := "system", content := s }]
      | .error .keyError => .ok [{ role := "system", content := config.system_prompt }]
      | .error .valueError => .error .valueError
    else .ok []
  let joined := String.intercalate " " (context.map Prod.snd)
  let user_content : String ←
    if config.user_prompt_template ≠ "" then
      match pyFormat config.user_prompt_template context with
      | .ok s => .ok s
      | .error .keyError => .ok joined
      | .error .valueError => .error .valueError
    else .ok joined
  .ok (sys_messages ++ [{ role := "user", content := user_content }])

/-! ### Capability routing (router.py) -/

/-- Default capability table of ``ModelRouter``. -/
def defaultCapabilityMap : List (String × String) :=
  [("fast", "gpt-5-mini"), ("smart", "gpt-5.1"), ("reasoning", "gemini-3-pro"),
   ("vision", "gpt-4o"), ("coding", "claude-3-5-sonnet")]

/-- ``ModelRouter.resolve_model``: a truthy runtime override wins
unchanged; otherwise the capability table is consulted with the default
model ``gpt-5.1`` for unknown labels. -/
def ModelRouter.resolve_model (capMap : List (String × String)) (capability : String)
    (runtime_override : Option String) : String :=
  match runtime_override with
  | some s => if s = "" then (dictGet capMap capability).getD "gpt-5.1" else s
  | none => (dictGet capMap capability).getD "gpt-5.1"

/-! ### Declared-agent execution (proxy.py, DynamicAgentProxy._execute)

The model handle and the tool/dependency resolution are collaborators of
the execution path; they are passed in as oracle functions, so a theorem
quantified over them states that the path under scrutiny does not depend
on (in particular, never calls) them. -/

/-- The handle returned by the LLM factory (interfaces.py contract). -/
structure LLMHandle where
  invoke : List Message → List String → String
  invoke_structured : List Message → List String → String → String
  invoke_agent_loop : List Message → List String → Nat → Option String → String

/-- ``LLMFactory.create`` signature: model name, temperature, max tokens,
profile. -/
def LLMFactory : Type :=
  String → ℚ → Option Nat → Option String → LLMHandle

/-- Exceptions escaping ``DynamicAgentProxy._execute``. -/
inductive ExecError where
  | agentDisabled (agent_name : String)
  | configMissing (msg : String)
  | formatError (e : FormatError)
  deriving DecidableEq

/-- ``DynamicAgentProxy._execute``: fetch the effective config, raise
``AgentDisabledError`` when it is disabled, then resolve the model name,
construct the LLM handle via the factory, resolve tool dependencies,
build the messages, and dispatch on the execution strategy
(``invoke_agent_loop`` for REACT, ``invoke_structured`` when the declared
return type is a schema, plain ``invoke`` otherwise). -/
def DynamicAgentProxy.execute (svc : AgentConfigState) (agent_name : String)
    (capMap : List (String × String)) (factory : LLMFactory)
    (resolveDeps : AgentConfig → List String)
    (input_context : List (String × String)) (return_schema : Option String)
    (runtime_model : Option String) : Except ExecError String :=
  match AgentConfigService.get_config svc agent_name with
  | .error msg => .error (.configMissing msg)
  | .ok config =>
    if config.enabled = false then .error (.agentDisabled agent_name)
    else
      let final_model_name := ModelRouter.resolve_model capMap config.capability runtime_model
      let llm := factory final_model_name config.temperature config.max_tokens config.llm_profile
      let resolved_tools := resolveDeps config
      match build_messages config input_context with
      | .error e => .error (.formatError e)
      | .ok messages =>
        if config.agent_type = .react then
          .ok (llm.invoke_agent_loop messages resolved_tools config.max_iterations return_schema)
        else
          match return_schema with
          | some schema => .ok (llm.invoke_structured messages resolved_tools schema)
          | none => .ok (llm.invoke messages resolved_tools)

/-! ### Virtual agents and the map-reduce workflow (virtual.py) -/

/-- A task item produced by the splitter: a worker-type tag and an
argument map for the worker. -/
structure TaskItem where
  worker_type : String
  arguments : List (String × String)
  deriving DecidableEq

/-- Child-agent invocation oracles for the workflow stages: the runner
obtains child agents from the locator and calls ``run_structured`` on the
splitter, ``run_with_args`` on each worker, and ``run`` on the reducer. -/
structure WorkflowEnv where
  runStructuredSplitter : String → String → List TaskItem
  runWithArgsWorker : String → List (String × String) → String
  runReducer : String → String → String

/-- Errors escaping ``VirtualAgentRunner.run_with_args``; the
constructors keep the Python exception classes distinct. -/
inductive RunError where
  | runtimeError (msg : String)
  | valueError (msg : String)
  | formatError (e : FormatError)
  deriving DecidableEq

/-- Worker-name selection inside ``mapper_node``: when a truthy (present
and non-empty) ``mappers`` dict exists, look up the worker type and fall
back (Python ``or``) to the single ``mapper`` default; otherwise use the
``mapper`` default directly. -/
def selectWorkerName (cfg : WorkflowConfig) (worker_type : String) : Option String :=
  match cfg.mappers with
  | some m => if m = [] then cfg.mapper else pyOrStr (dictGet m worker_type) cfg.mapper
  | none => cfg.mapper

/-- One fan-out branch of ``mapper_node``: a falsy selected worker name
yields the literal error string as that item's contribution; otherwise
the selected worker agent is invoked with the item's arguments. -/
def mapperResult (cfg : WorkflowConfig) (env : WorkflowEnv) (task : TaskItem) : String :=
  match selectWorkerName cfg task.worker_type with
  | none => "Error: No worker found"
  | some w =>
    if w = "" then "Error: No worker found"
    else env.runWithArgsWorker w task.arguments

/-- ``VirtualAgentRunner._arun_map_reduce``: require truthy splitter and
reducer names, run the splitter for the task list, map every task through
``mapper_node`` (the additive ``mapped_results`` channel collects one
result string per task), join with blank lines, and run the reducer once
on the joined text. -/
def arun_map_reduce (config : AgentConfig) (env : WorkflowEnv) (input : String) :
    Except RunError String :=
  let cfg := config.workflow_config
  if truthyOptStr cfg.splitter = false ∨ truthyOptStr cfg.reducer = false then
    .error (.valueError "Map-Reduce requires \x27splitter\x27 and \x27reducer\x27")
  else
    let tasks := env.runStructuredSplitter (cfg.splitter.getD "") input
    let mapped_results := tasks.map (mapperResult cfg env)
    let combined_input := String.intercalate "\n\n" mapped_results
    .ok (env.runReducer (cfg.reducer.getD "") combined_input)

/-- Python ``str(args)`` on a string-to-string dict, used by
``_arun_workflow`` as a fallback input value. -/
def pyStrArgs (args : List (String × String)) : String :=
  "\x7b" ++ String.intercalate ", "
    (args.map (fun p => "\x27" ++ p.1 ++ "\x27: \x27" ++ p.2 ++ "\x27")) ++ "\x7d"

/-- ``VirtualAgentRunner._arun_workflow``: read ``workflow_config.type``
and dispatch; only ``map_reduce`` exists, anything else raises
``ValueError`` with the unknown type interpolated (``None`` for an
absent key). -/
def arun_workflow (config : AgentConfig) (env : WorkflowEnv)
    (args : List (String × String)) : Except RunError String :=
  let workflow_type := config.workflow_config.type
  let input_val := (dictGet args "input").getD (pyStrArgs args)
  if workflow_type = some "map_reduce" then arun_map_reduce config env input_val
  else .error (.valueError ("Unknown workflow type: " ++ workflow_type.getD "None"))

/-- Collaborators of the non-workflow path of ``run_with_args``. -/
structure VirtualEnv where
  capMap : List (String × String)
  factory : LLMFactory
  resolveTools : AgentConfig → List String

/-- ``VirtualAgentRunner.run_with_args``; ``inAsyncLoop`` models whether
``asyncio.get_running_loop()`` finds a running event loop at the call
site.  Order of checks mirrors the source: the disabled check comes
first and returns the literal notice string; then, for WORKFLOW agents
only, a running loop raises ``RuntimeError`` before any workflow stage,
and otherwise ``asyncio.run`` drives the workflow; non-workflow agents
build the LLM, tools and messages and dispatch on the strategy. -/
def VirtualAgentRunner.run_with_args (config : AgentConfig) (inAsyncLoop : Bool)
    (env : VirtualEnv) (wenv : WorkflowEnv) (args : List (String × String)) :
    Except RunError String :=
  if config.enabled = false then .ok "Agent is disabled."
  else if config.agent_type = .workflow then
    if inAsyncLoop then
      .error (.runtimeError
        "Cannot call sync run() from inside an async loop. Use await agent.arun() instead.")
    else arun_workflow config wenv args
  else
    let final_model_name := ModelRouter.resolve_model env.capMap config.capability none
    let llm := env.factory final_model_name config.temperature config.max_tokens config.llm_profile
    let resolved_tools := env.resolveTools config
    match build_messages config args with
    | .error e => .error (.formatError e)
    | .ok messages =>
      if config.agent_type = .react then
        .ok (llm.invoke_agent_loop messages resolved_tools config.max_iterations none)
      else .ok (llm.invoke messages resolved_tools)

/-! ### Agent-as-tool method selection (proxy.py, _get_agent_method_name)

``inspect.getmembers`` returns the class members as (name, value) pairs
sorted alphabetically by name; the code keeps the non-underscore function
members, prefers a member literally named ``invoke``, and otherwise takes
the first remaining candidate (``invoke`` again when there is none). -/

/-- Python ``n.startswith("_")``: the first character is an
underscore. -/
def startsUnderscore (n : String) : Bool :=
  match n.data with
  | [] => false
  | c :: _ => c = '_'

/-- Lexicographic code-point comparison of character lists, the order
Python string comparison uses. -/
def charListLt : List Char → List Char → Bool
  | _, [] => false
  | [], _ :: _ => true
  | a :: as, b :: bs =>
    if a.toNat < b.toNat then true
    else if b.toNat < a.toNat then false
    else charListLt as bs

/-- Python ``a < b`` on strings. -/
def pyStrLt (a b : String) : Bool := charListLt a.data b.data

/-- Stable insertion of a string into a sorted list (models the sort
performed by ``inspect.getmembers``). -/
def insertSorted (s : String) : List String → List String
  | [] => [s]
  | t :: rest => if pyStrLt t s then t :: insertSorted s rest else s :: t :: rest

/-- Alphabetical sort by name, as ``inspect.getmembers`` produces. -/
def sortByName (l : List String) : List String := l.foldr insertSorted []

/-- ``DynamicAgentProxy._get_agent_method_name`` over the declared method
names of the child protocol (``none`` when the child has no protocol
class). -/
def getAgentMethodName (protocolMethods : Option (List String)) : String :=
  match protocolMethods with
  | none => "invoke"
  | some ms =>
    let candidates := (sortByName ms).filter (fun n => !startsUnderscore n)
    if "invoke" ∈ candidates then "invoke"
    else candidates.headD "invoke"

/-- Modelled from the spec wording of the selection rule: prefer
``invoke``, else the first public method in declared order.  Stated for
comparison with ``getAgentMethodName``, which embeds the source. -/
def getAgentMethodNameDeclaredOrder (protocolMethods : Option (List String)) : String :=
  match protocolMethods with
  | none => "invoke"
  | some ms =>
    let candidates := ms.filter (fun n => !startsUnderscore n)
    if "invoke" ∈ candidates then "invoke"
    else candidates.headD "invoke"

/-! ### Experiment registry (experiments.py)

Python float weights are modelled as rationals; dividing by a zero total
raises ``ZeroDivisionError``, which the code does not guard against. -/

/-- The ``_experiments`` table: public name to normalized variant list. -/
def ExperimentTable : Type := List (String × List (String × ℚ))

/-- ``ExperimentRegistry.register_experiment``: sum the weights, normalize
each entry by the total, store under the public name.  With a non-empty
variants dict and a zero total, the first division raises
``ZeroDivisionError`` before anything is stored; with an empty dict the
loop body never runs and an empty list is stored. -/
def register_experiment (experiments : ExperimentTable) (public_name : String)
    (variants : List (String × ℚ)) : Except String ExperimentTable :=
  let total_weight := (variants.map Prod.snd).sum
  match variants with
  | [] => .ok (dictSet experiments public_name [])
  | _ =>
    if total_weight = 0 then .error "ZeroDivisionError"
    else
      .ok (dictSet experiments public_name
        (variants.map (fun p => (p.1, p.2 / total_weight))))

/-! ### Trace collector (tracing.py)

``run_context`` (a ContextVar holding the ambient current run id) and the
in-memory trace list form the state.  The uuid4 ids are modelled by a
fresh counter, and wall-clock times are passed in explicitly. -/

/-- A Python value as it reaches ``end_run``: ``None``, a scalar, a
schema-shaped object exposing ``.dict()`` (its field map is carried), a
plain dict, or any other object together with its ``str()`` rendering. -/
inductive PyVal where
  | vNone
  | vStr (s : String)
  | vInt (n : Int)
  | vBool (b : Bool)
  | vDict (entries : List (String × PyVal))
  | vModel (fields : List (String × PyVal))
  | vObj (strRendering : String)

/-- The output-normalization chain of ``end_run``: scalars wrap into an
``output`` key, an object with ``.dict()`` contributes its own mapping,
dicts pass through, everything else is stringified under ``output``
(``str(None)`` is the literal ``"None"``). -/
def normalizeOutputs : PyVal → List (String × PyVal)
  | .vStr s => [("output", .vStr s)]
  | .vInt n => [("output", .vInt n)]
  | .vBool b => [("output", .vBool b)]
  | .vModel fields => fields
  | .vDict entries => entries
  | .vNone => [("output", .vStr "None")]
  | .vObj r => [("output", .vStr r)]

/-- The ``TraceRun`` dataclass. -/
structure TraceRun where
  id : Nat
  name : String
  run_type : String
  inputs : List (String × PyVal)
  parent_id : Option Nat := none
  start_time : Nat
  end_time : Option Nat := none
  outputs : Option (List (String × PyVal)) := none
  error : Option String := none
  extra : List (String × PyVal) := []

/-- State of ``TraceService`` plus the ambient ``run_context`` value and
the id supply. -/
structure TraceState where
  traces : List TraceRun := []
  ambient : Option Nat := none
  nextId : Nat := 0

/-- ``TraceService.start_run``: capture the ambient id as the parent,
append a fresh open span, and push the new id as the ambient value. -/
def TraceService.start_run (st : TraceState) (name run_type : String)
    (inputs : List (String × PyVal)) (extra : List (String × PyVal)) (now : Nat) :
    Nat × TraceState :=
  let parent_id := st.ambient
  let run_id := st.nextId
  let run : TraceRun :=
    { id := run_id, name := name, run_type := run_type, inputs := inputs,
      parent_id := parent_id, start_time := now, extra := extra }
  (run_id, { traces := st.traces ++ [run], ambient := some run_id, nextId := st.nextId + 1 })

/-- The single-span mutation of ``end_run``: stamp the end time, then
record the error string when a truthy error was passed, and otherwise
the normalized outputs. -/
def closeRun (now : Nat) (outputs : PyVal) (error : Option String) (run : TraceRun) :
    TraceRun :=
  match error with
  | some e => { run with end_time := some now, error := some e }
  | none => { run with end_time := some now, outputs := some (normalizeOutputs outputs) }

/-- Iteration of ``end_run`` over ``reversed(self.traces)``: the
most-recently-opened span with the given id is mutated, and its
``parent_id`` is reported so the caller can restore the ambient value;
``none`` is reported when no span matches. -/
def closeLast (runs : List TraceRun) (run_id : Nat) (now : Nat) (outputs : PyVal)
    (error : Option String) : List TraceRun × Option (Option Nat) :=
  match runs with
  | [] => ([], none)
  | r :: rest =>
    let step := closeLast rest run_id now outputs error
    match step.2 with
    | some p => (r :: step.1, some p)
    | none =>
      if r.id = run_id then (closeRun now outputs error r :: rest, some r.parent_id)
      else (r :: rest, none)

/-- ``TraceService.end_run``: close the most-recently-opened span with
the given id and restore the ambient value to its parent; when no span
matches, nothing happens. -/
def TraceService.end_run (st : TraceState) (run_id : Nat) (now : Nat)
    (outputs : PyVal) (error : Option String) : TraceState :=
  let step := closeLast st.traces run_id now outputs error
  match step.2 with
  | some parent => { st with traces := step.1, ambient := parent }
  | none => { st with traces := step.1 }

/-! ### Concrete fixtures for witnesses and counterexamples -/

/-- The span record that ``start_run`` appends, as a function of the
pre-state and the call arguments. -/
def startedSpan (st : TraceState) (name run_type : String)
    (inputs extra : List (String × PyVal)) (now : Nat) : TraceRun :=
  { id := st.nextId, name := name, run_type := run_type, inputs := inputs,
    parent_id := st.ambient, start_time := now, extra := extra }

/-- Fixtures for the C1 witness: a name carrying both a remote and a
local configuration. -/
def rcC1 : AgentConfig := { name := "a", system_prompt := "remote" }

def lcC1 : AgentConfig := { name := "a", system_prompt := "local" }

def stC1 : AgentConfigState :=
  { central := fun n => if n = "a" then some rcC1 else none,
    localReg := fun n => if n = "a" then some lcC1 else none,
    runtime_overrides := [] }

/-- Fixture for the C7 witness: no remote and no local source; one
stored override record for name ``a``. -/
def stC7 : AgentConfigState :=
  { central := fun _ => none, localReg := fun _ => none,
    runtime_overrides := [("a", { enabled := some false })] }

/-- Disabled-agent fixture for the C2 witness. -/
def cfgC2 : AgentConfig := { name := "d", enabled := false }

def svcC2 : AgentConfigState :=
  { central := fun n => if n = "d" then some cfgC2 else none,
    localReg := fun _ => none, runtime_overrides := [] }

/-- An inert model handle and factory, usable as the quantified
collaborators of the execution paths. -/
def noopLLM : LLMHandle :=
  { invoke := fun _ _ => "", invoke_structured := fun _ _ _ => "",
    invoke_agent_loop := fun _ _ _ _ => "" }

def noopFactory : LLMFactory := fun _ _ _ _ => noopLLM

def envNoop : VirtualEnv :=
  { capMap := defaultCapabilityMap, factory := noopFactory, resolveTools := fun _ => [] }

def wenvNoop : WorkflowEnv :=
  { runStructuredSplitter := fun _ _ => [], runWithArgsWorker := fun _ _ => "",
    runReducer := fun _ _ => "" }

/-- Fixture for the C4 witness: a system prompt with an unsatisfied
placeholder named ``missing`` and the default user template whose
``input`` placeholder is also absent from the context. -/
def cfgC4 : AgentConfig := { name := "t", system_prompt := "Hello \x7bmissing\x7d" }

/-- Fixture for the C4 witness: the dataclass-default empty system
prompt with the default user template. -/
def cfgC4b : AgentConfig := { name := "t2" }

/-- Fixture for the C4 witness: a placeholder-free system prompt (so
system substitution succeeds) with the default user template. -/
def cfgC4c : AgentConfig := { name := "t3", system_prompt := "Sys" }

/-- Fixtures for the C5 witness: a map-reduce workflow with one mapped
worker type, plus invocation oracles that record which child ran. -/
def cfgC5 : AgentConfig :=
  { name := "w", agent_type := .workflow,
    workflow_config :=
      { type := some "map_reduce", splitter := some "split", reducer := some "red",
        mappers := some [("t1", "worker1")], mapper := none } }

def wenvC5 : WorkflowEnv :=
  { runStructuredSplitter := fun s inp =>
      [{ worker_type := "t1", arguments := [("input", inp ++ "/" ++ s)] },
       { worker_type := "t2", arguments := [] }],
    runWithArgsWorker := fun w args => "ran " ++ w ++ " on " ++ pyStrArgs args,
    runReducer := fun r inp => "reduced by " ++ r ++ ": " ++ inp }

/-- Fixtures for C6: an enabled and a disabled WORKFLOW agent. -/
def cfgC6en : AgentConfig :=
  { name := "wf", agent_type := .workflow,
    workflow_config := { type := some "map_reduce", splitter := some "s", reducer := some "r" } }

def cfgC6dis : AgentConfig := { cfgC6en with enabled := false }

/-! ### Helper lemmas -/

theorem applyPatch_empty (b : AgentConfig) : applyPatch b ConfigPatch.empty = b := rfl

theorem applyPatch_of_isEmpty (b : AgentConfig) (p : ConfigPatch)
    (h : p.isEmpty = true) : applyPatch b p = b := by
  have hp : p = ConfigPatch.empty := of_decide_eq_true h
  subst hp
  rfl

theorem dictGet_dictSet_self {α : Type} (l : List (String × α)) (k : String) (v : α) :
    dictGet (dictSet l k v) k = some v := by
  induction l with
  | nil => simp [dictGet, dictSet]
  | cons hd tl ih =>
    obtain ⟨k₁, v₁⟩ := hd
    by_cases h : k₁ = k
    · simp [dictSet, h, dictGet]
    · simp [dictSet, h, dictGet, ih]

/-- The base-present branch of ``get_config`` in one equation: when remote
or local yields a base, the result is the base overlaid with the stored
override record (the empty record when none is stored). -/
theorem get_config_of_base (st : AgentConfigState) (name : String) (base : AgentConfig)
    (hb : (st.central name).orElse (fun _ => st.localReg name) = some base) :
    AgentConfigService.get_config st name =
      .ok (applyPatch base ((dictGet st.runtime_overrides name).getD ConfigPatch.empty)) := by
  unfold AgentConfigService.get_config
  dsimp only
  rw [hb]
  match hrt : dictGet st.runtime_overrides name with
  | none => simp [applyPatch_empty]
  | some p =>
    by_cases hp : p.isEmpty = true
    · simp [hp, applyPatch_of_isEmpty base p hp]
    · simp [hp]

theorem mem_insertSorted (a s : String) (l : List String) :
    a ∈ insertSorted s l ↔ a = s ∨ a ∈ l := by
  induction l with
  | nil => simp [insertSorted]
  | cons t rest ih =>
    by_cases h : pyStrLt t s = true
    · simp [insertSorted, h, ih]
      tauto
    · simp [insertSorted, h]

theorem mem_sortByName (a : String) (l : List String) :
    a ∈ sortByName l ↔ a ∈ l := by
  induction l with
  | nil => simp [sortByName]
  | cons t rest ih =>
    show a ∈ insertSorted t (sortByName rest) ↔ _
    rw [mem_insertSorted]
    simp [ih]

/-- The ``end_run`` scan over the reversed trace list mutates the last
span whose id matches (the most-recently-opened match) and reports its
parent id, whatever earlier spans hold. -/
theorem closeLast_append_last (l : List TraceRun) (r : TraceRun) (rid now : Nat)
    (outputs : PyVal) (error : Option String) (h : r.id = rid) :
    closeLast (l ++ [r]) rid now outputs error
      = (l ++ [closeRun now outputs error r], some r.parent_id) := by
  subst h
  induction l with
  | nil => simp [closeLast]
  | cons x xs ih => simp [closeLast, ih]

/-! ### Claim theorems -/

/-- C1: for an agent name with both a remote configuration and a local
declaration, ``get_config`` takes the remote configuration as the base
(the local one is ignored) and applies every field present in the
per-name runtime-override record as a field-wise overwrite on that base;
repeated ``update_agent_config`` calls for the same name merge their
records with the last value per field winning (``ConfigPatch.merge``
keeps a field of the newer record whenever it is present). -/
theorem remote_base_with_runtime_overlay (st : AgentConfigState) (name : String)
    (rc lc : AgentConfig) (hr : st.central name = some rc) (hl : st.localReg name = some lc) :
    AgentConfigService.get_config st name =
      .ok (applyPatch rc ((dictGet st.runtime_overrides name).getD ConfigPatch.empty)) ∧
    ∀ p₁ p₂ : ConfigPatch,
      dictGet (AgentConfigService.update_agent_config
          (AgentConfigService.update_agent_config st name p₁) name p₂).runtime_overrides name
        = some ((((dictGet st.runtime_overrides name).getD ConfigPatch.empty).merge p₁).merge p₂) ∧
      AgentConfigService.get_config
          (AgentConfigService.update_agent_config
            (AgentConfigService.update_agent_config st name p₁) name p₂) name
        = .ok (applyPatch rc
            ((((dictGet st.runtime_overrides name).getD ConfigPatch.empty).merge p₁).merge p₂)) := by
  have hb : ((st.central name).orElse fun _ => st.localReg name) = some rc := by
    rw [hr]; rfl
  refine ⟨get_config_of_base st name rc hb, ?_⟩
  intro p₁ p₂
  have hupd : dictGet (AgentConfigService.update_agent_config
      (AgentConfigService.update_agent_config st name p₁) name p₂).runtime_overrides name
      = some ((((dictGet st.runtime_overrides name).getD ConfigPatch.empty).merge p₁).merge p₂) := by
    simp [AgentConfigService.update_agent_config, dictGet_dictSet_self]
  refine ⟨hupd, ?_⟩
  have hb₂ : (((AgentConfigService.update_agent_config
      (AgentConfigService.update_agent_config st name p₁) name p₂).central name).orElse
      fun _ => (AgentConfigService.update_agent_config
        (AgentConfigService.update_agent_config st name p₁) name p₂).localReg name) = some rc := by
    simpa [AgentConfigService.update_agent_config] using hb
  rw [get_config_of_base _ name rc hb₂, hupd]
  rfl

/-- Witness for C1 at a concrete state: the remote config wins over the
local one, and two successive runtime overrides merge with the later
field values winning over both. -/
theorem remote_base_with_runtime_overlay_witness :
    stC1.central "a" = some rcC1 ∧ stC1.localReg "a" = some lcC1 ∧
    AgentConfigService.get_config stC1 "a" = .ok rcC1 ∧
    AgentConfigService.get_config
        (AgentConfigService.update_agent_config
          (AgentConfigService.update_agent_config stC1 "a"
            { enabled := some false, description := some "first" })
          "a" { description := some "second" }) "a"
      = .ok { rcC1 with enabled := false, description := "second" } := by
  have h := remote_base_with_runtime_overlay stC1 "a" rcC1 lcC1 rfl rfl
  refine ⟨rfl, rfl, h.1.trans rfl, ?_⟩
  exact (h.2 { enabled := some false, description := some "first" }
    { description := some "second" }).2.trans rfl

/-- C7: for a name with neither a remote configuration nor a local
declaration, a stored non-empty (truthy) runtime-override record makes
``get_config`` synthesize a best-effort config from the ``AgentConfig``
defaults plus the override fields (the record name wins when present,
else the queried name is filled in); when no source can produce a
configuration, the lookup fails with the exact message
``No configuration found for agent: <name>``. -/
theorem synthesize_or_missing (st : AgentConfigState) (name : String)
    (h1 : st.central name = none) (h2 : st.localReg name = none) :
    (∀ p : ConfigPatch, dictGet st.runtime_overrides name = some p → p.isEmpty = false →
      AgentConfigService.get_config st name = .ok (synthesizeConfig name p)) ∧
    (∀ p : ConfigPatch, dictGet st.runtime_overrides name = some p → p.isEmpty = true →
      AgentConfigService.get_config st name =
        .error ("No configuration found for agent: " ++ name)) ∧
    (dictGet st.runtime_overrides name = none →
      AgentConfigService.get_config st name =
        .error ("No configuration found for agent: " ++ name)) ∧
    (∀ (p : ConfigPatch) (nm : String), p.name = some nm →
      (synthesizeConfig name p).name = nm) ∧
    (∀ p : ConfigPatch, p.name = none → (synthesizeConfig name p).name = name) := by
  refine ⟨?_, ?_, ?_, ?_, ?_⟩
  · intro p hp hne
    unfold AgentConfigService.get_config
    dsimp only
    rw [h1, h2, hp]
    simp [Option.orElse, hne]
  · intro p hp hemp
    unfold AgentConfigService.get_config
    dsimp only
    rw [h1, h2, hp]
    simp [Option.orElse, hemp]
  · intro hp
    unfold AgentConfigService.get_config
    dsimp only
    rw [h1, h2, hp]
    simp [Option.orElse]
  · intro p nm hnm
    simp [synthesizeConfig, applyPatch, hnm]
  · intro p hnm
    simp [synthesizeConfig, applyPatch, hnm]

/-- Witness for C7 at a concrete state: the override for ``a``
synthesizes defaults plus the override with the queried name filled in,
and the unknown name ``b`` fails with the exact message. -/
theorem synthesize_or_missing_witness :
    dictGet stC7.runtime_overrides "a" = some { enabled := some false } ∧
    AgentConfigService.get_config stC7 "a" = .ok { name := "a", enabled := false } ∧
    AgentConfigService.get_config stC7 "b" = .error "No configuration found for agent: b" := by
  have ha := synthesize_or_missing stC7 "a" rfl rfl
  have hb := synthesize_or_missing stC7 "b" rfl rfl
  refine ⟨rfl, ?_, ?_⟩
  · exact (ha.1 { enabled := some false } rfl rfl).trans rfl
  · exact (hb.2.2.1 rfl).trans rfl

/-- C2: with an effective configuration that is disabled, invocation
fails before any model handle is constructed — the result is the same
for every LLM factory (and every dependency resolver), so the factory is
never consulted.  The declared-agent surface raises the typed
``AgentDisabledError`` carrying the agent name, while the virtual-agent
loose entry point ``run_with_args`` returns the literal notice string
``Agent is disabled.`` instead of raising. -/
theorem disabled_short_circuit (svc : AgentConfigState) (agent_name : String)
    (config : AgentConfig)
    (hc : AgentConfigService.get_config svc agent_name = .ok config)
    (hd : config.enabled = false) :
    (∀ (capMap : List (String × String)) (factory : LLMFactory)
        (resolveDeps : AgentConfig → List String) (ctx : List (String × String))
        (schema runtime_model : Option String),
      DynamicAgentProxy.execute svc agent_name capMap factory resolveDeps ctx
          schema runtime_model
        = .error (.agentDisabled agent_name)) ∧
    (∀ (inAsyncLoop : Bool) (env : VirtualEnv) (wenv : WorkflowEnv)
        (args : List (String × String)),
      VirtualAgentRunner.run_with_args config inAsyncLoop env wenv args
        = .ok "Agent is disabled.") := by
  constructor
  · intro capMap factory resolveDeps ctx schema runtime_model
    unfold DynamicAgentProxy.execute
    rw [hc]
    simp [hd]
  · intro inAsyncLoop env wenv args
    unfold VirtualAgentRunner.run_with_args
    simp [hd]

/-- Witness for C2 at a concrete disabled agent: the typed surface
raises the disabled error, the loose surface returns the notice
string. -/
theorem disabled_short_circuit_witness :
    AgentConfigService.get_config svcC2 "d" = .ok cfgC2 ∧ cfgC2.enabled = false ∧
    DynamicAgentProxy.execute svcC2 "d" defaultCapabilityMap noopFactory (fun _ => [])
        [("input", "hi")] none none
      = .error (.agentDisabled "d") ∧
    VirtualAgentRunner.run_with_args cfgC2 false envNoop wenvNoop [("input", "hi")]
      = .ok "Agent is disabled." := by
  have h := disabled_short_circuit svcC2 "d" cfgC2 rfl rfl
  exact ⟨rfl, rfl, h.1 _ _ _ _ _ _, h.2 _ _ _ _⟩

/-- C9: registering an experiment whose (non-empty) variants map has
weights summing to zero raises ``ZeroDivisionError`` during the
normalizing division, which is not guarded; no table is produced, so the
experiments table of the registry is left unchanged and no entry is
stored for the public name. -/
theorem zero_weight_experiment (experiments : ExperimentTable) (public_name : String)
    (variants : List (String × ℚ)) (hne : variants ≠ [])
    (h0 : (variants.map Prod.snd).sum = 0) :
    register_experiment experiments public_name variants = .error "ZeroDivisionError" ∧
    ∀ t : ExperimentTable, register_experiment experiments public_name variants ≠ .ok t := by
  obtain ⟨v, rest, rfl⟩ : ∃ v rest, variants = v :: rest := by
    cases variants with
    | nil => exact absurd rfl hne
    | cons v r => exact ⟨v, r, rfl⟩
  have hmain : register_experiment experiments public_name (v :: rest)
      = .error "ZeroDivisionError" := by
    unfold register_experiment
    simp only [h0]
    simp
  exact ⟨hmain, fun t ht => by rw [hmain] at ht; exact Except.noConfusion ht⟩

/-- Witness for C9: two variants of weight zero trigger the division by
zero. -/
theorem zero_weight_experiment_witness :
    ([("a", (0 : ℚ)), ("b", 0)] ≠ ([] : List (String × ℚ))) ∧
    (([("a", (0 : ℚ)), ("b", 0)].map Prod.snd).sum = 0) ∧
    register_experiment [] "exp" [("a", 0), ("b", 0)] = .error "ZeroDivisionError" := by
  refine ⟨by simp, by simp, ?_⟩
  exact (zero_weight_experiment [] "exp" [("a", 0), ("b", 0)] (by simp) (by simp)).1

/-- C3: ``start_run`` records the current ambient span id as the new
span's ``parent_id`` and sets the ambient value to the new span's id;
``end_run`` locates the most-recently-opened span with the given id
(the pre-state traces are arbitrary here, so the equation holds even
when older spans carry the same id — a first-match scan would fail it),
stamps its end time (``none`` before, ``some t₂`` after, so exactly
once for the matched pair), records either the error or the normalized
outputs, and restores the ambient value to the span's ``parent_id`` —
which equals the ambient value before ``start_run``. -/
theorem trace_span_lifecycle (st : TraceState) (name kind : String)
    (inputs extra : List (String × PyVal)) (t₁ t₂ : Nat) (outs : PyVal)
    (err : Option String) :
    (TraceService.start_run st name kind inputs extra t₁).1 = st.nextId ∧
    (TraceService.start_run st name kind inputs extra t₁).2
      = { traces := st.traces ++ [startedSpan st name kind inputs extra t₁],
          ambient := some st.nextId, nextId := st.nextId + 1 } ∧
    (startedSpan st name kind inputs extra t₁).parent_id = st.ambient ∧
    (startedSpan st name kind inputs extra t₁).end_time = none ∧
    TraceService.end_run (TraceService.start_run st name kind inputs extra t₁).2
        (TraceService.start_run st name kind inputs extra t₁).1 t₂ outs err
      = { traces := st.traces ++
            [closeRun t₂ outs err (startedSpan st name kind inputs extra t₁)],
          ambient := st.ambient, nextId := st.nextId + 1 } ∧
    (closeRun t₂ outs err (startedSpan st name kind inputs extra t₁)).end_time = some t₂ ∧
    (∀ e : String, closeRun t₂ outs (some e) (startedSpan st name kind inputs extra t₁)
      = { startedSpan st name kind inputs extra t₁ with
          end_time := some t₂, error := some e }) ∧
    closeRun t₂ outs none (startedSpan st name kind inputs extra t₁)
      = { startedSpan st name kind inputs extra t₁ with
          end_time := some t₂, outputs := some (normalizeOutputs outs) } := by
  refine ⟨rfl, rfl, rfl, rfl, ?_, ?_, fun e => rfl, rfl⟩
  · have h := closeLast_append_last st.traces
      { id := st.nextId, name := name, run_type := kind, inputs := inputs,
        parent_id := st.ambient, start_time := t₁, extra := extra } st.nextId t₂ outs err rfl
    unfold TraceService.end_run TraceService.start_run startedSpan
    dsimp only
    rw [h]
  · cases err <;> rfl

/-- C10: closing an open span with no outputs and no error stores the
map pairing ``output`` with the stringified ``None`` — and more
generally a span closed without an error always receives ``some``
normalized output map, never a null ``outputs``. -/
theorem end_run_stringifies_none (st : TraceState) (name kind : String)
    (inputs extra : List (String × PyVal)) (t₁ t₂ : Nat) :
    normalizeOutputs .vNone = [("output", .vStr "None")] ∧
    (∀ (r : TraceRun) (o : PyVal),
      (closeRun t₂ o none r).outputs = some (normalizeOutputs o)) ∧
    TraceService.end_run (TraceService.start_run st name kind inputs extra t₁).2
        (TraceService.start_run st name kind inputs extra t₁).1 t₂ .vNone none
      = { traces := st.traces ++
            [{ startedSpan st name kind inputs extra t₁ with
                end_time := some t₂, outputs := some [("output", .vStr "None")] }],
          ambient := st.ambient, nextId := st.nextId + 1 } := by
  refine ⟨rfl, fun r o => rfl, ?_⟩
  have h := closeLast_append_last st.traces
    { id := st.nextId, name := name, run_type := kind, inputs := inputs,
      parent_id := st.ambient, start_time := t₁, extra := extra } st.nextId t₂ .vNone none rfl
  unfold TraceService.end_run TraceService.start_run startedSpan
  dsimp only
  rw [h]
  exact rfl

/-- C4: building the message sequence never raises for a missing
placeholder, and the two fallbacks are independent.  Whenever the
(truthy) system prompt fails substitution with ``KeyError``, the system
message is exactly the raw un-substituted template — whether the user
template succeeds, fails, or is empty; whenever the user template fails
substitution with ``KeyError``, the user message is all provided
argument values joined with single spaces in insertion order — whether
the system prompt succeeds, fails, or is empty (then there is no system
message). -/
theorem template_fallback (config : AgentConfig) (ctx : List (String × String)) :
    (∀ u : String, config.system_prompt ≠ "" →
      pyFormat config.system_prompt ctx = .error .keyError →
      config.user_prompt_template ≠ "" →
      pyFormat config.user_prompt_template ctx = .ok u →
      build_messages config ctx = .ok
        [{ role := "system", content := config.system_prompt },
         { role := "user", content := u }]) ∧
    (∀ s : String, config.system_prompt ≠ "" →
      pyFormat config.system_prompt ctx = .ok s →
      pyFormat config.user_prompt_template ctx = .error .keyError →
      build_messages config ctx = .ok
        [{ role := "system", content := s },
         { role := "user", content := String.intercalate " " (ctx.map Prod.snd) }]) ∧
    (config.system_prompt ≠ "" →
      pyFormat config.system_prompt ctx = .error .keyError →
      pyFormat config.user_prompt_template ctx = .error .keyError →
      build_messages config ctx = .ok
        [{ role := "system", content := config.system_prompt },
         { role := "user", content := String.intercalate " " (ctx.map Prod.snd) }]) ∧
    (config.system_prompt = "" →
      pyFormat config.user_prompt_template ctx = .error .keyError →
      build_messages config ctx = .ok
        [{ role := "user", content := String.intercalate " " (ctx.map Prod.snd) }]) ∧
    (config.system_prompt ≠ "" →
      pyFormat config.system_prompt ctx = .error .keyError →
      config.user_prompt_template = "" →
      build_messages config ctx = .ok
        [{ role := "system", content := config.system_prompt },
         { role := "user", content := String.intercalate " " (ctx.map Prod.snd) }]) := by
  refine ⟨?_, ?_, ?_, ?_, ?_⟩
  · intro u hsys h1 hut hok
    unfold build_messages
    simp [hsys, hut, h1, hok]
    rfl
  · intro s hsys hok h2
    have hu : config.user_prompt_template ≠ "" := by
      intro he
      rw [he] at h2
      exact Except.noConfusion h2
    unfold build_messages
    simp [hsys, hu, hok, h2]
    rfl
  · intro hsys h1 h2
    have hu : config.user_prompt_template ≠ "" := by
      intro he
      rw [he] at h2
      exact Except.noConfusion h2
    unfold build_messages
    simp [hsys, hu, h1, h2]
    rfl
  · intro hsys h2
    have hu : config.user_prompt_template ≠ "" := by
      intro he
      rw [he] at h2
      exact Except.noConfusion h2
    unfold build_messages
    simp [hsys, hu, h2]
    rfl
  · intro hsys h1 hue
    unfold build_messages
    simp [hsys, hue, h1]
    rfl

/-- Witness for C4, covering the P7 example and the independent
fallbacks: the system prompt with a placeholder named ``missing``
renders literally while the default user template succeeds on an
``input`` argument; both templates fail on a context without their
keys and the user message degrades to the joined values; a config with
the default empty system prompt yields only the fallback user message;
a placeholder-free system prompt renders normally while the user
message falls back. -/
theorem template_fallback_witness :
    pyFormat cfgC4.system_prompt [("input", "hi")] = .error .keyError ∧
    pyFormat cfgC4.user_prompt_template [("input", "hi")] = .ok "hi" ∧
    build_messages cfgC4 [("input", "hi")] = .ok
      [{ role := "system", content := "Hello \x7bmissing\x7d" },
       { role := "user", content := "hi" }] ∧
    build_messages cfgC4 [("x", "a"), ("y", "b")] = .ok
      [{ role := "system", content := "Hello \x7bmissing\x7d" },
       { role := "user", content := "a b" }] ∧
    build_messages cfgC4b [("x", "a")] = .ok [{ role := "user", content := "a" }] ∧
    build_messages cfgC4c [("x", "a")] = .ok
      [{ role := "system", content := "Sys" }, { role := "user", content := "a" }] := by
  have hne : cfgC4.system_prompt ≠ "" := by
    intro he
    exact absurd (congrArg String.length he) (by decide)
  have hut : cfgC4.user_prompt_template ≠ "" := by
    intro he
    exact absurd (congrArg String.length he) (by decide)
  have hnec : cfgC4c.system_prompt ≠ "" := by
    intro he
    exact absurd (congrArg String.length he) (by decide)
  refine ⟨rfl, rfl, ?_, ?_, ?_, ?_⟩
  · exact ((template_fallback cfgC4 [("input", "hi")]).1 "hi" hne rfl hut rfl).trans rfl
  · exact ((template_fallback cfgC4 [("x", "a"), ("y", "b")]).2.2.1 hne rfl rfl).trans rfl
  · exact ((template_fallback cfgC4b [("x", "a")]).2.2.2.1 rfl rfl).trans rfl
  · exact ((template_fallback cfgC4c [("x", "a")]).2.1 "Sys" hnec rfl rfl).trans rfl

/-- C5: in the map-reduce fan-out, each task item's worker name comes
from the ``mappers`` map by ``worker_type`` when such a map is provided
(non-empty), falling back to the single ``mapper`` default when the type
is unmapped; when neither resolves, that item contributes the literal
string ``Error: No worker found`` and the workflow continues — the first
conjunct shows the reducer is always invoked on the blank-line join of
every item's result, with each item's contribution independent of the
others. -/
theorem map_reduce_per_item (config : AgentConfig) (env : WorkflowEnv) (input : String)
    (hs : truthyOptStr config.workflow_config.splitter = true)
    (hr : truthyOptStr config.workflow_config.reducer = true) :
    arun_map_reduce config env input
      = .ok (env.runReducer (config.workflow_config.reducer.getD "")
          (String.intercalate "\n\n"
            ((env.runStructuredSplitter (config.workflow_config.splitter.getD "") input).map
              (mapperResult config.workflow_config env)))) ∧
    (∀ (task : TaskItem) (m : List (String × String)) (w : String),
      config.workflow_config.mappers = some m → m ≠ [] →
      dictGet m task.worker_type = some w → w ≠ "" →
      mapperResult config.workflow_config env task
        = env.runWithArgsWorker w task.arguments) ∧
    (∀ (wt : String) (m : List (String × String)),
      config.workflow_config.mappers = some m → m ≠ [] → dictGet m wt = none →
      selectWorkerName config.workflow_config wt = config.workflow_config.mapper) ∧
    (∀ task : TaskItem,
      truthyOptStr (selectWorkerName config.workflow_config task.worker_type) = false →
      mapperResult config.workflow_config env task = "Error: No worker found") := by
  refine ⟨?_, ?_, ?_, ?_⟩
  · unfold arun_map_reduce
    simp [hs, hr]
  · intro task m w hm hme hdg hw
    unfold mapperResult selectWorkerName
    rw [hm]
    simp [hme, hdg, pyOrStr, hw]
  · intro wt m hm hme hdg
    unfold selectWorkerName
    rw [hm]
    simp [hme, hdg, pyOrStr]
  · intro task hfalse
    unfold mapperResult
    match hsel : selectWorkerName config.workflow_config task.worker_type with
    | none => rfl
    | some w =>
      rw [hsel] at hfalse
      have hwe : w = "" := by
        by_contra hne
        simp [truthyOptStr, hne] at hfalse
      simp [hwe]

/-- Witness for C5: a two-item split where the first worker type is
mapped and the second resolves to nothing; the second item degrades to
the literal error string while the reducer still combines both. -/
theorem map_reduce_per_item_witness :
    truthyOptStr cfgC5.workflow_config.splitter = true ∧
    truthyOptStr cfgC5.workflow_config.reducer = true ∧
    arun_map_reduce cfgC5 wenvC5 "inp"
      = .ok ("reduced by red: ran worker1 on \x7b\x27input\x27: \x27inp/split\x27\x7d"
          ++ "\n\n" ++ "Error: No worker found") ∧
    mapperResult cfgC5.workflow_config wenvC5 { worker_type := "t2", arguments := [] }
      = "Error: No worker found" := by
  have h := map_reduce_per_item cfgC5 wenvC5 "inp" rfl rfl
  exact ⟨rfl, rfl, h.1.trans rfl, h.2.2.2 { worker_type := "t2", arguments := [] } rfl⟩

/-- Counterexample to C6 as stated: a disabled WORKFLOW agent invoked
synchronously from inside a running event loop does not raise the
distinct loop error — the disabled check runs first and returns the
literal disabled-notice string. -/
theorem sync_in_async_loop_counterexample :
    cfgC6dis.agent_type = .workflow ∧
    VirtualAgentRunner.run_with_args cfgC6dis true envNoop wenvNoop [("input", "x")]
      = .ok "Agent is disabled." ∧
    ∀ msg : String,
      VirtualAgentRunner.run_with_args cfgC6dis true envNoop wenvNoop [("input", "x")]
        ≠ .error (.runtimeError msg) := by
  exact ⟨rfl, rfl, fun msg h => Except.noConfusion h⟩

/-- C6 (amended): for every *enabled* WORKFLOW-strategy agent, the
synchronous ``run_with_args`` entry point raises the distinct
``RuntimeError`` immediately when a loop is already running — never the
``ValueError`` class used by in-workflow failures — and outside a
running loop the same call proceeds into the workflow dispatcher.
(A disabled agent instead returns the disabled-notice string before the
loop check.) -/
theorem sync_in_async_loop_amended (config : AgentConfig)
    (hen : config.enabled = true) (hwf : config.agent_type = .workflow) :
    (∀ (env : VirtualEnv) (wenv : WorkflowEnv) (args : List (String × String)),
      VirtualAgentRunner.run_with_args config true env wenv args
        = .error (.runtimeError
            "Cannot call sync run() from inside an async loop. Use await agent.arun() instead.")) ∧
    (∀ (env : VirtualEnv) (wenv : WorkflowEnv) (args : List (String × String)) (msg : String),
      VirtualAgentRunner.run_with_args config true env wenv args
        ≠ .error (.valueError msg)) ∧
    (∀ (env : VirtualEnv) (wenv : WorkflowEnv) (args : List (String × String)),
      VirtualAgentRunner.run_with_args config false env wenv args
        = arun_workflow config wenv args) := by
  have hmain : ∀ (env : VirtualEnv) (wenv : WorkflowEnv) (args : List (String × String)),
      VirtualAgentRunner.run_with_args config true env wenv args
        = .error (.runtimeError
            "Cannot call sync run() from inside an async loop. Use await agent.arun() instead.") := by
    intro env wenv args
    unfold VirtualAgentRunner.run_with_args
    simp [hen, hwf]
  refine ⟨hmain, ?_, ?_⟩
  · intro env wenv args msg h
    rw [hmain env wenv args] at h
    exact RunError.noConfusion (Except.error.inj h)
  · intro env wenv args
    unfold VirtualAgentRunner.run_with_args
    simp [hen, hwf]

/-- Witness for the amended C6 at a concrete enabled workflow agent. -/
theorem sync_in_async_loop_amended_witness :
    cfgC6en.enabled = true ∧ cfgC6en.agent_type = .workflow ∧
    VirtualAgentRunner.run_with_args cfgC6en true envNoop wenvNoop [("input", "x")]
      = .error (.runtimeError
          "Cannot call sync run() from inside an async loop. Use await agent.arun() instead.") ∧
    VirtualAgentRunner.run_with_args cfgC6en false envNoop wenvNoop [("input", "x")]
      = arun_workflow cfgC6en wenvNoop [("input", "x")] := by
  have h := sync_in_async_loop_amended cfgC6en rfl rfl
  exact ⟨rfl, rfl, h.1 _ _ _, h.2.2 _ _ _⟩

/-- Counterexample to C8 as stated: for a child interface declaring the
public methods ``zeta`` then ``alpha`` (declared order) and no
``invoke``, the source binds ``alpha`` — ``inspect.getmembers`` sorts
members alphabetically — while the first public method in declared
order would be ``zeta``. -/
theorem agent_method_name_counterexample :
    getAgentMethodName (some ["zeta", "alpha"]) = "alpha" ∧
    getAgentMethodNameDeclaredOrder (some ["zeta", "alpha"]) = "zeta" ∧
    getAgentMethodName (some ["zeta", "alpha"])
      ≠ getAgentMethodNameDeclaredOrder (some ["zeta", "alpha"]) := by
  refine ⟨by decide, by decide, by decide⟩

/-- C8 (amended): the bound invocation method is the one literally named
``invoke`` whenever the child's interface declares such a public method;
otherwise it is the alphabetically first public method of the interface
(``inspect.getmembers`` returns members sorted by name, not in declared
order), and ``invoke`` again for an interface with no public methods or
no protocol class at all. -/
theorem agent_method_name_selection (pm : List String) :
    getAgentMethodName none = "invoke" ∧
    ("invoke" ∈ pm.filter (fun n => !startsUnderscore n) →
      getAgentMethodName (some pm) = "invoke") ∧
    ("invoke" ∉ pm.filter (fun n => !startsUnderscore n) →
      getAgentMethodName (some pm)
        = ((sortByName pm).filter (fun n => !startsUnderscore n)).headD "invoke") := by
  refine ⟨rfl, ?_, ?_⟩
  · intro h
    have hmem : "invoke" ∈ (sortByName pm).filter (fun n => !startsUnderscore n) := by
      rw [List.mem_filter] at h ⊢
      exact ⟨(mem_sortByName _ _).2 h.1, h.2⟩
    unfold getAgentMethodName
    simp [hmem]
  · intro h
    have hmem : "invoke" ∉ (sortByName pm).filter (fun n => !startsUnderscore n) := by
      intro hc
      rw [List.mem_filter] at hc h
      exact h ⟨(mem_sortByName _ _).1 hc.1, hc.2⟩
    unfold getAgentMethodName
    simp [hmem]

/-- Witness for the amended C8: with declared methods ``zeta`` then
``alpha`` the alphabetically first public method ``alpha`` is bound, and
with an ``invoke`` present it wins. -/
theorem agent_method_name_selection_witness :
    ("invoke" ∉ ["zeta", "alpha"].filter (fun n => !startsUnderscore n)) ∧
    getAgentMethodName (some ["zeta", "alpha"]) = "alpha" ∧
    ("invoke" ∈ ["zeta", "invoke"].filter (fun n => !startsUnderscore n)) ∧
    getAgentMethodName (some ["zeta", "invoke"]) = "invoke" := by
  refine ⟨by decide, ?_, by decide, ?_⟩
  · exact ((agent_method_name_selection ["zeta", "alpha"]).2.2 (by decide)).trans (by decide)
  · exact (agent_method_name_selection ["zeta", "invoke"]).2.1 (by decide)

end PicoAgent
